import Mathlib

/-!
Verification of the `matbits/counter` repository: a shallow embedding of
`cmd/counter/main.go` and `pkg/fhandler` / `pkg/lockfile` into Lean 4.

Modelling conventions:
* The counter value (a Go `float64`) is modelled as an exact rational `ℚ`;
  properties that depend on IEEE-754 rounding or on decimal/binary float
  conversion are outside this embedding.
* The filesystem is an association list from paths to `FileData`.  A file
  holding a serialized counter value is `FileData.val q`; a truncated or
  partially written file is `FileData.corrupt`.
* Fallible OS primitives (CreateTemp, Write, Chmod, Rename, Stat, Open,
  Create, io.Copy, Sync, Remove, json.Marshal) consult a `FaultOracle`
  that fixes the success/failure outcome of each primitive for one call;
  control flow after each outcome is transliterated from the Go source.
-/

namespace Counter

/-- Content of one file in the model: a serialized counter value, or
truncated/partial bytes that do not decode. -/
inductive FileData
  | val (q : ℚ)
  | corrupt
deriving DecidableEq, Repr

/-- The filesystem: an association list from paths to file contents. -/
abbrev FS := List (String × FileData)

/-- Look up the content of path `p`. `none` means the file does not exist. -/
def fsGet (fs : FS) (p : String) : Option FileData :=
  (fs.find? (fun e => e.1 == p)).map Prod.snd

/-- Create or replace the file at path `p` with content `d`. -/
def fsSet (fs : FS) (p : String) (d : FileData) : FS :=
  (p, d) :: fs.filter (fun e => e.1 != p)

/-- Delete the file at path `p`. -/
def fsRemove (fs : FS) (p : String) : FS :=
  fs.filter (fun e => e.1 != p)

/-- Outcome chosen for the `os.Rename` system call. -/
inductive RenameRes
  | ok
  | crossDev
  | otherErr
deriving DecidableEq, Repr

/-- Per-call outcomes of the fallible OS primitives (fault injection). -/
structure FaultOracle where
  marshalOk : Bool := true
  createTempOk : Bool := true
  tmpName : String := "t"
  tmpWriteOk : Bool := true
  chmodOk : Bool := true
  renameRes : RenameRes := RenameRes.ok
  statFail : Bool := false
  openOk : Bool := true
  createOk : Bool := true
  copyOk : Bool := true
  syncOk : Bool := true
  chmodDstOk : Bool := true
  removeOk : Bool := true
deriving DecidableEq, Repr

/-- Error values returned by the embedded functions, one per failing
primitive; mirrors which Go error is propagated. -/
inductive Err
  | marshal
  | createTemp
  | tmpWrite
  | chmod
  | statOther
  | statNotExist
  | openSrc
  | createDst
  | copy
  | sync
  | chmodDst
  | remove
deriving DecidableEq, Repr

/-- `os.Stat` errors: `fs.ErrNotExist` versus any other error. -/
inductive StatErr
  | notExist
  | other
deriving DecidableEq, Repr

/-- `os.Stat`: fails with `ErrNotExist` on an absent path; the oracle can
force any stat to fail with a different error (e.g. permission denied). -/
def osStat (o : FaultOracle) (fs : FS) (p : String) : Except StatErr Unit :=
  if o.statFail then Except.error StatErr.other
  else
    match fsGet fs p with
    | some _ => Except.ok ()
    | none => Except.error StatErr.notExist

/-- Error kind carried by a failed `os.Rename`: either its message ends in
"invalid cross-device link", or it is any other OS error. -/
inductive OsRenameErr
  | crossDev
  | otherErr
deriving DecidableEq, Repr

/-- `os.Rename(src, dst)`: on success atomically moves `src` onto `dst`;
on failure leaves the filesystem unchanged and reports either the
cross-device error or another OS error.  Renaming an absent source always
fails. -/
def osRename (o : FaultOracle) (fs : FS) (src dst : String) :
    FS × Option OsRenameErr :=
  match fsGet fs src with
  | none => (fs, some OsRenameErr.otherErr)
  | some d =>
    match o.renameRes with
    | RenameRes.ok => (fsSet (fsRemove fs src) dst d, none)
    | RenameRes.crossDev => (fs, some OsRenameErr.crossDev)
    | RenameRes.otherErr => (fs, some OsRenameErr.otherErr)

/-- `fhandler.CopyFile(src, dst)` (fhandler.go:55-95): open `src`,
`os.Create` `dst` (truncating it), copy the bytes, sync, stat `src` and
copy the mode.  `os.Create` leaves `dst` truncated when the later copy
fails. -/
def CopyFile (o : FaultOracle) (fs : FS) (src dst : String) :
    FS × Option Err :=
  if !o.openOk then (fs, some Err.openSrc)
  else
    match fsGet fs src with
    | none => (fs, some Err.openSrc)
    | some d =>
      if !o.createOk then (fs, some Err.createDst)
      else
        let fs1 := fsSet fs dst FileData.corrupt
        if !o.copyOk then (fs1, some Err.copy)
        else
          let fs2 := fsSet fs1 dst d
          if !o.syncOk then (fs2, some Err.sync)
          else if o.statFail then (fs2, some Err.statOther)
          else if !o.chmodDstOk then (fs2, some Err.chmodDst)
          else (fs2, none)

/-- `fhandler.Rename(src, dst)` (fhandler.go:19-48), transliterated: calls
`os.Rename`; only when the error message ends in "invalid cross-device
link" does it run the copy-then-delete fallback (the sources written by
`WriteAtomic` are regular files, so the `CopyFile` branch applies); any
other `os.Rename` error falls through to the final `return nil`. -/
def Rename (o : FaultOracle) (fs : FS) (src dst : String) :
    FS × Option Err :=
  match osRename o fs src dst with
  | (fs1, none) => (fs1, none)
  | (fs1, some OsRenameErr.otherErr) => (fs1, none)
  | (fs1, some OsRenameErr.crossDev) =>
    if o.statFail then (fs1, some Err.statOther)
    else
      match fsGet fs1 src with
      | none => (fs1, some Err.statOther)
      | some _ =>
        match CopyFile o fs1 src dst with
        | (fs2, some e) => (fs2, some e)
        | (fs2, none) =>
          if o.removeOk then (fsRemove fs2 src, none)
          else (fs2, some Err.remove)

/-- The temp-name pattern of `writeTmpFile` (fhandler.go:217-219): a
wildcard marker is appended when the prefix has none. -/
def tmpPattern (pfx : String) : String :=
  if pfx.data.contains '*' then pfx else pfx ++ "_*"

/-- The path of the temporary file `os.CreateTemp(dir, pattern)` creates:
a name in `dir` derived from the pattern, made unique by an OS-chosen
random string (given by the oracle; the exact substitution of the
wildcard by that string is immaterial and modelled as appending it). -/
def tmpPath (o : FaultOracle) (dir pfx : String) : String :=
  dir ++ "/" ++ tmpPattern pfx ++ o.tmpName

/-- `fhandler.writeTmpFile(dir, prefix, content)` (fhandler.go:216-236):
create a fresh temp file, write the content; on a write error the temp
file is removed and the error returned. -/
def writeTmpFile (o : FaultOracle) (fs : FS) (dir pfx : String)
    (content : FileData) : FS × Except Err String :=
  if !o.createTempOk then (fs, Except.error Err.createTemp)
  else
    let name := tmpPath o dir pfx
    let fs1 := fsSet fs name FileData.corrupt
    if o.tmpWriteOk then (fsSet fs1 name content, Except.ok name)
    else (fsRemove fs1 name, Except.error Err.tmpWrite)

/-- `fhandler.WriteAtomic(dir, prefix, file, content, permission)`
(fhandler.go:193-205): write a temp file, chmod it, rename it onto the
target.  A chmod failure returns the error without removing the temp
file.  Permission bits carry no information the claims need and are not
tracked. -/
def WriteAtomic (o : FaultOracle) (fs : FS) (dir pfx file : String)
    (content : FileData) : FS × Option Err :=
  match writeTmpFile o fs dir pfx content with
  | (fs1, Except.error e) => (fs1, some e)
  | (fs1, Except.ok tmpName) =>
    if !o.chmodOk then (fs1, some Err.chmod)
    else Rename o fs1 tmpName file

/-- `fhandler.WriteAtomicTmpDir(prefix, file, content, permission)`
(fhandler.go:189-191): `WriteAtomic` with `os.TempDir()` as staging
directory; the temp directory is passed explicitly here. -/
def WriteAtomicTmpDir (o : FaultOracle) (fs : FS) (tmpDir pfx file : String)
    (content : FileData) : FS × Option Err :=
  WriteAtomic o fs tmpDir pfx file content

/-- State of the counter service: the global `number` (main.go:26), the
configured counter-file path and the temp directory, plus the filesystem.
The `sync.RWMutex` serializes handler bodies; each handler invocation is
modelled as one atomic step on this state. -/
structure SState where
  number : ℚ
  fileName : String
  tmpDir : String
  fs : FS
deriving DecidableEq, Repr

/-- Go `int(number)`: float-to-int conversion truncates toward zero;
`Int.div` on the rational's numerator and denominator does the same. -/
def goInt (q : ℚ) : Int :=
  Int.tdiv q.num (q.den : Int)

/-- Result of one HTTP handler invocation: a 200 response with its body,
or a 503 `StatusServiceUnavailable`. -/
inductive HResult
  | ok (body : String)
  | unavailable
deriving DecidableEq, Repr

/-- `latestCounter` handler (main.go:107-115): under the read lock,
respond with `fmt.Sprintf("%d", int(number))`. -/
def latestCounter (s : SState) : HResult :=
  HResult.ok (toString (goInt s.number))

/-- `hostname` handler (main.go:117-147): under the write lock, increment
`number`, marshal it, `WriteAtomicTmpDir("counter", fileName, out, 0644)`;
on marshal or write failure decrement `number` back and answer 503;
on success answer the new truncated value.  `json.Marshal` of a `float64`
is exact (shortest round-trip decimal), so the marshalled bytes denote
the rational `number`; the oracle's `marshalOk` models the one marshal
failure mode (an unencodable value such as NaN/Inf, not expressible
in `ℚ`). -/
def hostname (o : FaultOracle) (s : SState) : SState × HResult :=
  let n1 := s.number + 1
  if !o.marshalOk then
    ({ s with number := n1 - 1 }, HResult.unavailable)
  else
    match WriteAtomicTmpDir o s.fs s.tmpDir "counter" s.fileName
        (FileData.val n1) with
    | (fs1, some _) =>
      ({ s with number := n1 - 1, fs := fs1 }, HResult.unavailable)
    | (fs1, none) =>
      ({ s with number := n1, fs := fs1 }, HResult.ok (toString (goInt n1)))

/-- `initFile` (main.go:162-169): marshal the current global `number` and
write it atomically to the counter file. -/
def initFile (o : FaultOracle) (fs : FS) (tmpDir fileName : String)
    (number : ℚ) : FS × Option Err :=
  if !o.marshalOk then (fs, some Err.marshal)
  else WriteAtomicTmpDir o fs tmpDir "counter" fileName (FileData.val number)

/-- `createFile` (main.go:149-160): stat the counter file; when it does
not exist, initialize it; any other stat error is returned; when it
exists, do nothing. -/
def createFile (o : FaultOracle) (fs : FS) (tmpDir fileName : String)
    (number : ℚ) : FS × Option Err :=
  match osStat o fs fileName with
  | Except.error StatErr.notExist => initFile o fs tmpDir fileName number
  | Except.error StatErr.other => (fs, some Err.statOther)
  | Except.ok _ => (fs, none)

/-- The startup load path (main.go:60-70): `os.ReadFile` then
`json.Unmarshal` into `number`.  `none` models a fatal startup error
(unreadable file or undecodable content). -/
def loadCounter (fs : FS) (fileName : String) : Option ℚ :=
  match fsGet fs fileName with
  | some (FileData.val q) => some q
  | some FileData.corrupt => none
  | none => none

/-- Startup of `main` after the exclusivity lock (main.go:54-70):
`createFile` with the zero-valued global `number`, then load the counter
file into `number`.  `none` models `os.Exit(1)`. -/
def startup (o : FaultOracle) (fs : FS) (tmpDir fileName : String) :
    Option SState :=
  match createFile o fs tmpDir fileName 0 with
  | (_, some _) => none
  | (fs1, none) =>
    match loadCounter fs1 fileName with
    | none => none
    | some q =>
      some { number := q, fileName := fileName, tmpDir := tmpDir, fs := fs1 }

/-- fcntl lock type stored in a `Flock_t`: `F_RDLCK`, `F_WRLCK` or
`F_UNLCK`. -/
inductive LockType
  | read
  | write
  | unlck
deriving DecidableEq, Repr

/-- The part of a `syscall.Flock_t` the model tracks: the lock type and
the pid written into it (lockfile source lines 291-303).  The service
only ever locks offset 0 / whence SeekStart / length 0, i.e. the whole
file, so ranges carry no information and are not tracked. -/
structure Flock where
  typ : LockType
  pid : Int
deriving DecidableEq, Repr

/-- The kernel's advisory-lock table: the set of currently held fcntl
locks as (lock-file path, lock type, holder pid) records. -/
abbrev LockTable := List (String × LockType × Int)

/-- State of the handle's `l.file` pointer: nil (never opened), a non-nil
open descriptor, or a non-nil but already-closed descriptor.  The
distinction matters because a failed fcntl closes the file WITHOUT
setting `l.file` back to nil, so a later call on the same handle does
not reopen it and operates on a closed descriptor. -/
inductive FileState
  | noFile
  | openFile
  | closedFile
deriving DecidableEq, Repr

/-- `lockfile.FcntlLockfile` (lockfile source lines 206-211): `file`
models the `*os.File` pointer and its descriptor state, `ft` the
(possibly nil) `*syscall.Flock_t`. -/
structure FcntlLockfile where
  path : String
  file : FileState
  maintainFile : Bool
  ft : Option Flock
deriving DecidableEq, Repr

/-- `lockfile.NewFcntlLockfile(path)` (lockfile source lines 213-215):
`file` is nil, `maintainFile` true, `ft` nil. -/
def NewFcntlLockfile (path : String) : FcntlLockfile :=
  { path := path, file := FileState.noFile, maintainFile := true,
    ft := none }

/-- fcntl conflict rule for a whole-file `F_SETLK` request by `pid` on
`path`: an exclusive request conflicts with any lock held by another
process; a shared request conflicts with another process's write lock.
A process never conflicts with its own locks. -/
def lockConflicts (tbl : LockTable) (path : String) (pid : Int)
    (exclusive : Bool) : Bool :=
  tbl.any (fun e =>
    e.1 == path && e.2.2 != pid &&
      (exclusive || e.2.1 == LockType.write))

/-- Result of a lock call: opening the lock file can fail with an OS
error; a failed `FcntlFlock` is mapped to `ErrFailedToLock`. -/
inductive LockErr
  | openFailed
  | failedToLock
deriving DecidableEq, Repr

/-- `FcntlLockfile.lock` for the non-blocking `F_SETLK` variants
(lockfile source lines 282-320): the lock file is opened ONLY when
`l.file` is nil (`openOk` is the outcome of that `os.OpenFile`; on
failure the OS error is returned with `l.ft` still unassigned).  Then
the `Flock_t` is built and assigned to `l.ft` BEFORE the fcntl call.
`FcntlFlock` fails on a closed descriptor (EBADF — a previous failed
attempt closed the file without nil-ing `l.file`) or on a conflicting
lock held by another process; any fcntl failure closes the file (when
`maintainFile`) and returns `ErrFailedToLock`, with `l.ft` left
assigned.  `pid` is `os.Getpid()` of the calling process. -/
def FcntlLockfile.lock (l : FcntlLockfile) (tbl : LockTable) (pid : Int)
    (openOk : Bool) (exclusive : Bool) :
    FcntlLockfile × LockTable × Option LockErr :=
  let openRes : Option FcntlLockfile :=
    match l.file with
    | FileState.noFile =>
      if openOk then some { l with file := FileState.openFile } else none
    | _ => some l
  match openRes with
  | none => (l, tbl, some LockErr.openFailed)
  | some l0 =>
    let typ := if exclusive then LockType.write else LockType.read
    let l1 : FcntlLockfile :=
      { l0 with ft := some { typ := typ, pid := pid } }
    if l1.file = FileState.closedFile ∨
        lockConflicts tbl l.path pid exclusive then
      (if l1.maintainFile then { l1 with file := FileState.closedFile }
        else l1,
        tbl, some LockErr.failedToLock)
    else
      (l1, (l.path, typ, pid) :: tbl, none)

/-- `FcntlLockfile.LockWrite` (exclusive, non-blocking; lockfile source
lines 225-227). -/
def FcntlLockfile.LockWrite (l : FcntlLockfile) (tbl : LockTable)
    (pid : Int) (openOk : Bool) :
    FcntlLockfile × LockTable × Option LockErr :=
  FcntlLockfile.lock l tbl pid openOk true

/-- `FcntlLockfile.LockRead` (shared, non-blocking; lockfile source
lines 221-223). -/
def FcntlLockfile.LockRead (l : FcntlLockfile) (tbl : LockTable)
    (pid : Int) (openOk : Bool) :
    FcntlLockfile × LockTable × Option LockErr :=
  FcntlLockfile.lock l tbl pid openOk false

/-- `FcntlLockfile.unlock` (lockfile source lines 322-336): the first
statement dereferences `l.ft` — `none` models the nil-pointer panic when
`ft` was never assigned.  Otherwise the entry is set to `F_UNLCK` and
`FcntlFlock` releases the caller's lock (a no-op error, only logged, when
the descriptor is already closed); the file is closed when
`maintainFile`. -/
def FcntlLockfile.unlock (l : FcntlLockfile) (tbl : LockTable) :
    Option (FcntlLockfile × LockTable) :=
  match l.ft with
  | none => none
  | some ft =>
    let tbl1 :=
      if l.file = FileState.openFile then
        tbl.filter (fun e => !(e.1 == l.path && e.2.2 == ft.pid))
      else tbl
    let ft1 : Flock := { ft with typ := LockType.unlck }
    let l1 : FcntlLockfile :=
      { l with
        ft := some ft1,
        file := if l.maintainFile then FileState.closedFile else l.file }
    some (l1, tbl1)

/-- `FcntlLockfile.Unlock` (lockfile source lines 237-239). -/
def FcntlLockfile.Unlock (l : FcntlLockfile) (tbl : LockTable) :
    Option (FcntlLockfile × LockTable) :=
  FcntlLockfile.unlock l tbl

/-- `FcntlLockfile.Owner` (lockfile source lines 264-280): the first
statement `*ft = *l.ft` dereferences `l.ft`, and the fcntl call
dereferences `l.file` — `none` models the nil-pointer panic when either
is nil.  Otherwise `F_GETLK` reports the pid of a process holding a
conflicting lock, `-1` when unlocked, held only by the caller, or on an
fcntl error (closed descriptor). -/
def FcntlLockfile.Owner (l : FcntlLockfile) (tbl : LockTable) :
    Option Int :=
  match l.ft with
  | none => none
  | some ft =>
    match l.file with
    | FileState.noFile => none
    | FileState.closedFile => some (-1)
    | FileState.openFile =>
      match tbl.find? (fun e =>
          e.1 == l.path && e.2.2 != ft.pid &&
            (ft.typ == LockType.write || e.2.1 == LockType.write)) with
      | some e => some e.2.2
      | none => some (-1)

/-- The lock-file path `main` uses (main.go:38):
`filepath.Join(os.TempDir(), "counter.lock")`.  The configured counter
file path is a parameter of `main`'s environment but does not occur in
the expression. -/
def startupLockPath (tmpDir : String) (fileName : String) : String :=
  let _ := fileName
  tmpDir ++ "/" ++ "counter.lock"

/-- A running service state over counter file "counter.txt" (holding the
serialized value 0) with temp directory "/tmp": the state a successful
startup from an absent counter file reaches. -/
def baseState : SState :=
  { number := 0, fileName := "counter.txt", tmpDir := "/tmp",
    fs := [("counter.txt", FileData.val 0)] }

end Counter

namespace Counter

/-! ### Helper lemmas about the filesystem model -/

theorem find_filter_ne (fs : FS) (p q : String) (h : p ≠ q) :
    (fs.filter (fun e => e.1 != p)).find? (fun e => e.1 == q) =
      fs.find? (fun e => e.1 == q) := by
  have hqp : ¬(q = p) := fun hh => h hh.symm
  have hpq : (p == q) = false := beq_false_of_ne h
  induction fs with
  | nil => rfl
  | cons e t ih =>
    by_cases he : e.1 = p
    · have hq : (e.1 == q) = false := by
        rw [he]
        exact beq_false_of_ne h
      simp [List.filter_cons, he, hqp, hpq, List.find?_cons, hq, ih]
    · by_cases hq : e.1 = q
      · simp [List.filter_cons, he, hqp, List.find?_cons, hq]
      · simp [List.filter_cons, he, hqp, List.find?_cons, hq, ih]

theorem find_filter_self (fs : FS) (p : String) :
    (fs.filter (fun e => e.1 != p)).find? (fun e => e.1 == p) = none := by
  induction fs with
  | nil => rfl
  | cons e t ih =>
    by_cases he : e.1 = p
    · simp [List.filter_cons, he, ih]
    · simp [List.filter_cons, he, List.find?_cons, ih]

theorem fsGet_fsSet_self (fs : FS) (p : String) (d : FileData) :
    fsGet (fsSet fs p d) p = some d := by
  simp [fsGet, fsSet, List.find?_cons]

theorem fsGet_fsSet_ne (fs : FS) (p q : String) (h : p ≠ q) (d : FileData) :
    fsGet (fsSet fs p d) q = fsGet fs q := by
  have hpq : (p == q) = false := by
    simp
    exact h
  simp [fsGet, fsSet, List.find?_cons, hpq, find_filter_ne fs p q h]

theorem fsGet_fsRemove_self (fs : FS) (p : String) :
    fsGet (fsRemove fs p) p = none := by
  simp [fsGet, fsRemove, find_filter_self]

theorem fsGet_fsRemove_ne (fs : FS) (p q : String) (h : p ≠ q) :
    fsGet (fsRemove fs p) q = fsGet fs q := by
  simp [fsGet, fsRemove, find_filter_ne fs p q h]

end Counter

namespace Counter

/-! ### Claim theorems -/

/-- C3: the claim says a non-cross-device `os.Rename` failure (permission
denied, disk full, I/O error) is propagated unchanged by
`fhandler.Rename` / `WriteAtomic`.  The code does the opposite: when
`os.Rename` fails with any error whose message does not end in "invalid
cross-device link", `Rename` falls through to `return nil`, so the error
is swallowed, `Rename` and `WriteAtomic` report success, and the target
file is left with its old content (here the temp file also stays
behind). -/
theorem C3_rename_error_swallowed :
    osRename { renameRes := RenameRes.otherErr }
        [("a", FileData.val 1), ("b", FileData.val 0)] "a" "b" =
      ([("a", FileData.val 1), ("b", FileData.val 0)],
        some OsRenameErr.otherErr) ∧
    Rename { renameRes := RenameRes.otherErr }
        [("a", FileData.val 1), ("b", FileData.val 0)] "a" "b" =
      ([("a", FileData.val 1), ("b", FileData.val 0)], none) ∧
    (WriteAtomic { renameRes := RenameRes.otherErr }
        [("b", FileData.val 0)] "/tmp" "counter" "b" (FileData.val 1)).2 =
      none ∧
    fsGet (WriteAtomic { renameRes := RenameRes.otherErr }
        [("b", FileData.val 0)] "/tmp" "counter" "b" (FileData.val 1)).1
        "b" =
      some (FileData.val 0) := by
  decide

/-- C4 counterexample: the claim says a `WriteAtomic` call that fails at
any step before a successful rename never leaves the temporary file
behind.  When the `os.Chmod` of the temp file fails, `WriteAtomic`
returns the error without deleting the temp file: it remains in the
staging directory. -/
theorem C4_counterexample_chmod_failure_leaves_temp :
    (WriteAtomic { chmodOk := false } [("counter.txt", FileData.val 0)]
        "/tmp" "counter" "counter.txt" (FileData.val 1)).2 =
      some Err.chmod ∧
    fsGet (WriteAtomic { chmodOk := false }
        [("counter.txt", FileData.val 0)]
        "/tmp" "counter" "counter.txt" (FileData.val 1)).1
        (tmpPath { chmodOk := false } "/tmp" "counter") =
      some (FileData.val 1) := by
  decide

/-- C4 amended: only for failures during the write-to-temp step (temp
creation or writing the content) is the temporary file absent after the
call (deleted, or never created) with the target file untouched; a
later permission-setting failure returns the error but leaves the
temporary file behind (the target still untouched). -/
theorem C4_amended_write_step_failure_no_temp (o : FaultOracle) (fs : FS)
    (dir pfx file : String) (c : FileData)
    (hfail : o.createTempOk = false ∨ o.tmpWriteOk = false)
    (hname : tmpPath o dir pfx ≠ file)
    (hfresh : fsGet fs (tmpPath o dir pfx) = none) :
    (WriteAtomic o fs dir pfx file c).2.isSome = true ∧
    fsGet (WriteAtomic o fs dir pfx file c).1 (tmpPath o dir pfx) = none ∧
    fsGet (WriteAtomic o fs dir pfx file c).1 file = fsGet fs file := by
  by_cases hct : o.createTempOk
  · have htw : o.tmpWriteOk = false := by
      rcases hfail with hf | hf
      · rw [hct] at hf
        exact absurd hf (by simp)
      · exact hf
    refine ⟨?_, ?_, ?_⟩ <;>
      simp [WriteAtomic, writeTmpFile, hct, htw, fsGet_fsRemove_self,
        fsGet_fsRemove_ne _ _ _ hname, fsGet_fsSet_ne _ _ _ hname]
  · have hct' : o.createTempOk = false := by
      exact Bool.not_eq_true _ ▸ (by simpa using hct)
    refine ⟨?_, ?_, ?_⟩ <;>
      simp [WriteAtomic, writeTmpFile, hct', hfresh]

/-- C4 witness for the amended theorem: a concrete failed write-to-temp
step leaves no temp file and an untouched target. -/
theorem C4_amended_witness :
    (({ tmpWriteOk := false } : FaultOracle).createTempOk = false ∨
      ({ tmpWriteOk := false } : FaultOracle).tmpWriteOk = false) ∧
    tmpPath { tmpWriteOk := false } "/tmp" "counter" ≠ "counter.txt" ∧
    fsGet [("counter.txt", FileData.val 0)]
      (tmpPath { tmpWriteOk := false } "/tmp" "counter") = none ∧
    ((WriteAtomic { tmpWriteOk := false } [("counter.txt", FileData.val 0)]
        "/tmp" "counter" "counter.txt" (FileData.val 1)).2.isSome = true ∧
      fsGet (WriteAtomic { tmpWriteOk := false }
          [("counter.txt", FileData.val 0)]
          "/tmp" "counter" "counter.txt" (FileData.val 1)).1
          (tmpPath { tmpWriteOk := false } "/tmp" "counter") = none ∧
      fsGet (WriteAtomic { tmpWriteOk := false }
          [("counter.txt", FileData.val 0)]
          "/tmp" "counter" "counter.txt" (FileData.val 1)).1
          "counter.txt" =
        fsGet [("counter.txt", FileData.val 0)] "counter.txt") :=
  ⟨by decide, by decide, by decide,
    C4_amended_write_step_failure_no_temp { tmpWriteOk := false }
      [("counter.txt", FileData.val 0)] "/tmp" "counter" "counter.txt"
      (FileData.val 1) (by decide) (by decide) (by decide)⟩

/-- C6: `createFile` on an already-existing counter file leaves the
filesystem (in particular the file's content) unchanged, and running it
a second time right after leaves it unchanged again — idempotence on an
already-initialized counter file, for every outcome of the fallible
stat. -/
theorem C6_createFile_idempotent_on_existing (o1 o2 : FaultOracle)
    (fs : FS) (tmpDir fileName : String) (n1 n2 : ℚ) (d : FileData)
    (h : fsGet fs fileName = some d) :
    (createFile o1 fs tmpDir fileName n1).1 = fs ∧
    (createFile o2 (createFile o1 fs tmpDir fileName n1).1
        tmpDir fileName n2).1 = fs := by
  have key : ∀ (o : FaultOracle) (n : ℚ),
      (createFile o fs tmpDir fileName n).1 = fs := by
    intro o n
    by_cases hs : o.statFail
    · simp [createFile, osStat, hs]
    · simp [createFile, osStat, hs, h]
  refine ⟨key o1 n1, ?_⟩
  rw [key o1 n1]
  exact key o2 n2

/-- C6 witness: both runs on a concrete one-file filesystem leave it
unchanged. -/
theorem C6_witness :
    fsGet [("counter.txt", FileData.val 7)] "counter.txt" =
      some (FileData.val 7) ∧
    ((createFile {} [("counter.txt", FileData.val 7)] "/tmp" "counter.txt"
        0).1 = [("counter.txt", FileData.val 7)] ∧
      (createFile {} (createFile {} [("counter.txt", FileData.val 7)]
          "/tmp" "counter.txt" 0).1 "/tmp" "counter.txt" 0).1 =
        [("counter.txt", FileData.val 7)]) :=
  ⟨by decide,
    C6_createFile_idempotent_on_existing {} {}
      [("counter.txt", FileData.val 7)] "/tmp" "counter.txt" 0 0
      (FileData.val 7) (by decide)⟩

/-- C9 counterexample: the claim says Unlock (or Owner) crashes on a
handle on which no lock call has ever SUCCEEDED.  After a lock attempt
that failed (conflicting lock held by pid 1), no lock call has succeeded
on the handle, yet `l.ft` was assigned before the fcntl call, so Unlock
and Owner dereference a non-nil pointer and do not crash. -/
theorem C9_counterexample_failed_attempt_then_unlock_safe :
    (FcntlLockfile.LockWrite (NewFcntlLockfile "p")
        [("p", LockType.write, 1)] 2 true).2.2 =
      some LockErr.failedToLock ∧
    ((FcntlLockfile.LockWrite (NewFcntlLockfile "p")
        [("p", LockType.write, 1)] 2 true).1.ft).isSome = true ∧
    (FcntlLockfile.Unlock
        (FcntlLockfile.LockWrite (NewFcntlLockfile "p")
          [("p", LockType.write, 1)] 2 true).1
        [("p", LockType.write, 1)]).isSome = true ∧
    (FcntlLockfile.Owner
        (FcntlLockfile.LockWrite (NewFcntlLockfile "p")
          [("p", LockType.write, 1)] 2 true).1
        [("p", LockType.write, 1)]).isSome = true := by
  decide

/-- C9 amended: Unlock (or Owner) on a lock handle on which no lock
attempt has ever reached the fcntl stage dereferences the nil `l.ft`
(and nil `l.file`) and crashes.  That covers a fresh handle and a handle
whose only attempts failed at `os.OpenFile` (the open error is returned
before `l.ft` is assigned, so Unlock still crashes); an attempt that
reaches the fcntl call assigns `l.ft` first, even when it then fails. -/
theorem C9_amended_unlock_without_fcntl_attempt_crashes (p : String)
    (tbl : LockTable) (pid : Int) :
    FcntlLockfile.Unlock (NewFcntlLockfile p) tbl = none ∧
    FcntlLockfile.Owner (NewFcntlLockfile p) tbl = none ∧
    (FcntlLockfile.LockWrite (NewFcntlLockfile p) tbl pid false).2.2 =
      some LockErr.openFailed ∧
    (FcntlLockfile.LockWrite (NewFcntlLockfile p) tbl pid false).1 =
      NewFcntlLockfile p ∧
    FcntlLockfile.Unlock
        (FcntlLockfile.LockWrite (NewFcntlLockfile p) tbl pid false).1
        tbl = none :=
  ⟨rfl, rfl, rfl, rfl, rfl⟩

end Counter

namespace Counter

/-- C5 counterexample: the claim says that after the first holder
unlocks, a retried acquire on the SAME second handle succeeds.  The
failed first attempt closed the handle's descriptor without setting
`l.file` back to nil, so the retry skips the open block and calls
`FcntlFlock` on a closed descriptor: it fails with `ErrFailedToLock`
again (EBADF), even though the lock table is by then empty. -/
theorem C5_counterexample_same_handle_retry_fails :
    FcntlLockfile.LockWrite (NewFcntlLockfile "p") [] 1 true =
      (⟨"p", FileState.openFile, true, some ⟨LockType.write, 1⟩⟩,
        [("p", LockType.write, 1)], none) ∧
    FcntlLockfile.LockWrite (NewFcntlLockfile "p")
        [("p", LockType.write, 1)] 2 true =
      (⟨"p", FileState.closedFile, true, some ⟨LockType.write, 2⟩⟩,
        [("p", LockType.write, 1)], some LockErr.failedToLock) ∧
    FcntlLockfile.Unlock
        ⟨"p", FileState.openFile, true, some ⟨LockType.write, 1⟩⟩
        [("p", LockType.write, 1)] =
      some (⟨"p", FileState.closedFile, true, some ⟨LockType.unlck, 1⟩⟩,
        []) ∧
    FcntlLockfile.LockWrite
        ⟨"p", FileState.closedFile, true, some ⟨LockType.write, 2⟩⟩
        [] 2 true =
      (⟨"p", FileState.closedFile, true, some ⟨LockType.write, 2⟩⟩,
        [], some LockErr.failedToLock) := by
  refine ⟨?_, ?_, ?_, ?_⟩ <;> decide

/-- C5 amended: with two independent handles on the same lock-file path
and distinct process ids, the first non-blocking exclusive acquire
succeeds; while it is held, the second handle's attempt fails with the
distinguished "failed to obtain lock" error and leaves the lock table
unchanged; after the first holder unlocks, a retried acquire on the same
failed handle fails again with the same error (its descriptor was closed
by the failed attempt), while an acquire on a fresh handle on the same
path by the second process succeeds. -/
theorem C5_amended_second_acquire_fails_fresh_handle_succeeds
    (path : String) (pid1 pid2 : Int) (h : pid1 ≠ pid2) :
    ∃ (h1 h2 h1u h2f : FcntlLockfile) (tbl2 tbl3 : LockTable),
      FcntlLockfile.LockWrite (NewFcntlLockfile path) [] pid1 true =
        (h1, [(path, LockType.write, pid1)], none) ∧
      FcntlLockfile.LockWrite (NewFcntlLockfile path)
          [(path, LockType.write, pid1)] pid2 true =
        (h2, [(path, LockType.write, pid1)],
          some LockErr.failedToLock) ∧
      FcntlLockfile.Unlock h1 [(path, LockType.write, pid1)] =
        some (h1u, tbl2) ∧
      FcntlLockfile.LockWrite h2 tbl2 pid2 true =
        (h2, tbl2, some LockErr.failedToLock) ∧
      FcntlLockfile.LockWrite (NewFcntlLockfile path) tbl2 pid2 true =
        (h2f, tbl3, none) := by
  have hne : (pid1 != pid2) = true := by
    simp [bne_iff_ne]
    exact h
  refine ⟨⟨path, FileState.openFile, true, some ⟨LockType.write, pid1⟩⟩,
    ⟨path, FileState.closedFile, true, some ⟨LockType.write, pid2⟩⟩,
    ⟨path, FileState.closedFile, true, some ⟨LockType.unlck, pid1⟩⟩,
    ⟨path, FileState.openFile, true, some ⟨LockType.write, pid2⟩⟩,
    [], [(path, LockType.write, pid2)], ?_, ?_, ?_, ?_, ?_⟩
  · simp [FcntlLockfile.LockWrite, FcntlLockfile.lock, lockConflicts,
      NewFcntlLockfile]
  · simp [FcntlLockfile.LockWrite, FcntlLockfile.lock, lockConflicts,
      NewFcntlLockfile, hne]
  · simp [FcntlLockfile.Unlock, FcntlLockfile.unlock]
  · simp [FcntlLockfile.LockWrite, FcntlLockfile.lock, lockConflicts]
  · simp [FcntlLockfile.LockWrite, FcntlLockfile.lock, lockConflicts,
      NewFcntlLockfile]

/-- C5 witness for the amended theorem: the scenario at path
"counter.lock" with process ids 1 and 2. -/
theorem C5_amended_witness :
    (1 : Int) ≠ 2 ∧
    (∃ (h1 h2 h1u h2f : FcntlLockfile) (tbl2 tbl3 : LockTable),
      FcntlLockfile.LockWrite (NewFcntlLockfile "counter.lock") [] 1 true =
        (h1, [("counter.lock", LockType.write, 1)], none) ∧
      FcntlLockfile.LockWrite (NewFcntlLockfile "counter.lock")
          [("counter.lock", LockType.write, 1)] 2 true =
        (h2, [("counter.lock", LockType.write, 1)],
          some LockErr.failedToLock) ∧
      FcntlLockfile.Unlock h1 [("counter.lock", LockType.write, 1)] =
        some (h1u, tbl2) ∧
      FcntlLockfile.LockWrite h2 tbl2 2 true =
        (h2, tbl2, some LockErr.failedToLock) ∧
      FcntlLockfile.LockWrite (NewFcntlLockfile "counter.lock") tbl2 2
          true =
        (h2f, tbl3, none)) :=
  ⟨by decide,
    C5_amended_second_acquire_fails_fresh_handle_succeeds "counter.lock"
      1 2 (by decide)⟩

/-- C10: the lock-file path computed at startup is the fixed name
"counter.lock" inside the system temp directory, for every configured
counter-file path; hence a second instance configured with a different
counter file contends on the same lock file and its non-blocking
exclusive acquire fails while the first instance holds the lock. -/
theorem C10_lock_path_fixed_and_instances_exclude
    (tmpDir f1 f2 : String) (pid1 pid2 : Int) (h : pid1 ≠ pid2) :
    startupLockPath tmpDir f1 = startupLockPath tmpDir f2 ∧
    startupLockPath tmpDir f1 = tmpDir ++ "/" ++ "counter.lock" ∧
    (FcntlLockfile.LockWrite
        (NewFcntlLockfile (startupLockPath tmpDir f2))
        ((FcntlLockfile.LockWrite
          (NewFcntlLockfile (startupLockPath tmpDir f1)) [] pid1
          true).2.1)
        pid2 true).2.2 = some LockErr.failedToLock := by
  have hne : (pid1 != pid2) = true := by
    simp [bne_iff_ne]
    exact h
  refine ⟨rfl, rfl, ?_⟩
  simp [FcntlLockfile.LockWrite, FcntlLockfile.lock, lockConflicts,
    NewFcntlLockfile, startupLockPath, hne]

/-- C10 witness: two instances with counter files "a.txt" and "b.txt",
pids 1 and 2, temp directory "/tmp". -/
theorem C10_witness :
    (1 : Int) ≠ 2 ∧
    (startupLockPath "/tmp" "a.txt" = startupLockPath "/tmp" "b.txt" ∧
      startupLockPath "/tmp" "a.txt" = "/tmp" ++ "/" ++ "counter.lock" ∧
      (FcntlLockfile.LockWrite
          (NewFcntlLockfile (startupLockPath "/tmp" "b.txt"))
          ((FcntlLockfile.LockWrite
            (NewFcntlLockfile (startupLockPath "/tmp" "a.txt")) [] 1
            true).2.1)
          2 true).2.2 = some LockErr.failedToLock) :=
  ⟨by decide,
    C10_lock_path_fixed_and_instances_exclude "/tmp" "a.txt" "b.txt" 1 2
      (by decide)⟩

end Counter

namespace Counter

/-- C1: the claim says every successful `IncrementAndPersist` (the
`/hostname` handler) leaves the on-disk counter equal to the
post-increment in-memory value.  Because `fhandler.Rename` swallows
non-cross-device `os.Rename` errors, the handler can report success
(200 with body "1", in-memory value 1) while the counter file still
holds the old value 0: the persist step silently did not happen. -/
theorem C1_successful_increment_with_stale_disk :
    (hostname { renameRes := RenameRes.otherErr } baseState).2 =
      HResult.ok "1" ∧
    (hostname { renameRes := RenameRes.otherErr } baseState).1.number =
      1 ∧
    fsGet (hostname { renameRes := RenameRes.otherErr } baseState).1.fs
      "counter.txt" = some (FileData.val 0) := by
  refine ⟨?_, ?_, ?_⟩ <;>
    norm_num [hostname, baseState, WriteAtomicTmpDir, WriteAtomic,
      writeTmpFile, tmpPath, tmpPattern, fsSet, fsRemove, fsGet, Rename,
      osRename, goInt] <;>
    decide

/-- C2 counterexample: the claim says a failed `IncrementAndPersist`
leaves the on-disk counter file unchanged.  When `os.Rename` fails
cross-device and the fallback's final `os.Remove` of the temp file
fails, `WriteAtomic` returns the error (so the handler rolls back and
answers 503) but `CopyFile` has already replaced the target's content
with the new value: the on-disk file changed although an error is
reported. -/
theorem C2_counterexample_crossdev_failure_changes_disk :
    (hostname { renameRes := RenameRes.crossDev, removeOk := false }
      baseState).2 = HResult.unavailable ∧
    (hostname { renameRes := RenameRes.crossDev, removeOk := false }
      baseState).1.number = 0 ∧
    fsGet (hostname { renameRes := RenameRes.crossDev, removeOk := false }
      baseState).1.fs "counter.txt" = some (FileData.val 1) := by
  refine ⟨?_, ?_, ?_⟩ <;>
    norm_num [hostname, baseState, WriteAtomicTmpDir, WriteAtomic,
      writeTmpFile, tmpPath, tmpPattern, fsSet, fsRemove, fsGet, Rename,
      osRename, CopyFile, goInt]

/-- On any erroneous `WriteAtomic` whose `os.Rename` outcome is not the
cross-device error, the target file is untouched (the temp path must be
fresh, as `os.CreateTemp` guarantees). -/
theorem writeAtomic_err_frame (o : FaultOracle) (fs : FS)
    (dir pfx file : String) (c : FileData)
    (hname : tmpPath o dir pfx ≠ file)
    (hcd : o.renameRes ≠ RenameRes.crossDev) :
    (WriteAtomic o fs dir pfx file c).2.isSome = true →
    fsGet (WriteAtomic o fs dir pfx file c).1 file = fsGet fs file := by
  intro herr
  by_cases hct : o.createTempOk
  · by_cases htw : o.tmpWriteOk
    · by_cases hch : o.chmodOk
      · rcases hr : o.renameRes with _ | _ | _
        · exfalso
          rw [WriteAtomic, writeTmpFile] at herr
          simp [hct, htw, hch, Rename, osRename, fsGet_fsSet_self, hr]
            at herr
        · exact absurd hr hcd
        · exfalso
          rw [WriteAtomic, writeTmpFile] at herr
          simp [hct, htw, hch, Rename, osRename, fsGet_fsSet_self, hr]
            at herr
      · rw [WriteAtomic, writeTmpFile]
        simp [hct, htw, hch, fsGet_fsSet_ne _ _ _ hname]
    · rw [WriteAtomic, writeTmpFile]
      simp [hct, htw, fsGet_fsRemove_ne _ _ _ hname,
        fsGet_fsSet_ne _ _ _ hname]
  · rw [WriteAtomic, writeTmpFile]
    simp [hct]

/-- C2 amended: when the `/hostname` handler fails (503), the in-memory
counter is rolled back to exactly its pre-call value, and — provided the
failure is not on the cross-device fallback path, which modifies the
target before it can fail — the on-disk counter file is unchanged. -/
theorem C2_amended_failure_rolls_back (o : FaultOracle) (s : SState)
    (hname : tmpPath o s.tmpDir "counter" ≠ s.fileName)
    (hfail : (hostname o s).2 = HResult.unavailable) :
    (hostname o s).1.number = s.number ∧
    (o.renameRes ≠ RenameRes.crossDev →
      fsGet (hostname o s).1.fs s.fileName = fsGet s.fs s.fileName) := by
  by_cases hm : o.marshalOk
  · rcases hW : WriteAtomicTmpDir o s.fs s.tmpDir "counter" s.fileName
        (FileData.val (s.number + 1)) with ⟨fs1, eo⟩
    have hW' : WriteAtomic o s.fs s.tmpDir "counter" s.fileName
        (FileData.val (s.number + 1)) = (fs1, eo) := hW
    cases eo with
    | none =>
      exfalso
      rw [hostname] at hfail
      simp [hm, hW] at hfail
    | some e =>
      rw [hostname] at hfail ⊢
      simp only [hm, hW]
      constructor
      · simp
      · intro hcd
        have hframe := writeAtomic_err_frame o s.fs s.tmpDir "counter"
          s.fileName (FileData.val (s.number + 1)) hname hcd
        rw [hW'] at hframe
        simpa using hframe (by rfl)
  · rw [hostname] at hfail ⊢
    constructor
    · simp [hm]
    · intro hcd
      simp [hm]

/-- C2 witness for the amended theorem: a chmod-failure on the persist
of the first increment — 503 answered, in-memory value back at 0, disk
untouched. -/
theorem C2_amended_witness :
    tmpPath { chmodOk := false } baseState.tmpDir "counter" ≠
      baseState.fileName ∧
    (hostname { chmodOk := false } baseState).2 = HResult.unavailable ∧
    ((hostname { chmodOk := false } baseState).1.number =
        baseState.number ∧
      (({ chmodOk := false } : FaultOracle).renameRes ≠
          RenameRes.crossDev →
        fsGet (hostname { chmodOk := false } baseState).1.fs
            baseState.fileName =
          fsGet baseState.fs baseState.fileName)) :=
  ⟨by decide,
    by
      simp [hostname, baseState, WriteAtomicTmpDir, WriteAtomic,
        writeTmpFile],
    C2_amended_failure_rolls_back { chmodOk := false } baseState
      (by decide)
      (by
        simp [hostname, baseState, WriteAtomicTmpDir, WriteAtomic,
          writeTmpFile])⟩

/-- C8: the concrete end-to-end scenario.  From an absent counter file,
startup creates it with value 0 and loads it; `GET /latest` answers "0";
one successful `GET /hostname` answers "1", after which `GET /latest`
answers "1" and the on-disk counter file decodes to 1; a second
`GET /hostname` with persistence forced to fail (temp-file creation
denied, e.g. read-only staging directory) answers 503 and `GET /latest`
still answers "1". -/
theorem C8_concrete_scenario :
    startup {} [] "/tmp" "counter.txt" = some baseState ∧
    latestCounter baseState = HResult.ok "0" ∧
    (hostname { tmpName := "t2" } baseState).2 = HResult.ok "1" ∧
    (hostname { tmpName := "t2" } baseState).1.number = 1 ∧
    loadCounter (hostname { tmpName := "t2" } baseState).1.fs
      "counter.txt" = some 1 ∧
    latestCounter (hostname { tmpName := "t2" } baseState).1 =
      HResult.ok "1" ∧
    (hostname { createTempOk := false }
      (hostname { tmpName := "t2" } baseState).1).2 =
      HResult.unavailable ∧
    latestCounter (hostname { createTempOk := false }
      (hostname { tmpName := "t2" } baseState).1).1 = HResult.ok "1" := by
  have hs1 : (hostname { tmpName := "t2" } baseState).1 =
      { number := 1, fileName := "counter.txt", tmpDir := "/tmp",
        fs := [("counter.txt", FileData.val 1)] } := by
    norm_num [hostname, baseState, WriteAtomicTmpDir, WriteAtomic,
      writeTmpFile, tmpPath, tmpPattern, fsSet, fsRemove, fsGet, Rename,
      osRename]
  refine ⟨by decide, by decide, ?_, ?_, ?_, ?_, ?_, ?_⟩
  · norm_num [hostname, baseState, WriteAtomicTmpDir, WriteAtomic,
      writeTmpFile, tmpPath, tmpPattern, fsSet, fsRemove, fsGet, Rename,
      osRename, goInt]
    decide
  · rw [hs1]
  · rw [hs1]
    decide
  · rw [hs1]
    decide
  · rw [hs1]
    norm_num [hostname, WriteAtomicTmpDir, WriteAtomic, writeTmpFile]
  · rw [hs1]
    norm_num [hostname, WriteAtomicTmpDir, WriteAtomic, writeTmpFile,
      latestCounter, goInt]
    decide

end Counter
